import Mathlib

/-!
Verification development for the WebSocket signaling Lambda of the
collaborative-whiteboard repository.  The definitions below are a shallow
embedding of the handler module (handleConnect / handleDisconnect /
handleSignal / handleJoinRoom / handleLeaveRoom / handleWebRTCSignal /
getRoomUsers / broadcastToRoom) together with the DynamoDB rooms table it
operates on (partition key roomId, sort key connectionId, TTL attribute ttl,
global secondary index on connectionId).

The DynamoDB table is modelled as a list of records; PutCommand overwrites
the record with the same (roomId, connectionId) key, DeleteCommand removes
it, QueryCommand on the primary key filters by roomId, QueryCommand on the
connectionId-index filters by connectionId, and ScanCommand with a userId
filter expression filters by userId over the whole table.  Neither Query nor
Scan applies any TTL condition, matching the source, where expired items are
only removed by the physical DynamoDB purge.  The API Gateway management
client is modelled by an environment mapping each connectionId to the
outcome of a PostToConnection write; outbound posts made by a handler are
collected in a list of (connectionId, message) pairs.
-/

namespace CdkConfVibe

/-- Item of the whiteboard-rooms table: one live presence of one user in one
room, keyed by (roomId, connectionId), with a 24h TTL attribute. -/
structure RoomConnection where
  roomId : String
  connectionId : String
  userId : String
  ttl : Nat
deriving Repr, DecidableEq

/-- The physical contents of the rooms table. -/
abbrev Store := List RoomConnection

/-- Outcome of one PostToConnection write to a connection; a gone connection
surfaces as an error carrying statusCode 410. -/
inductive SendResult where
  | ok : SendResult
  | err (statusCode : Nat) : SendResult
deriving Repr, DecidableEq

/-- Transport environment: the outcome of posting to each connectionId. -/
abbrev Env := String → SendResult

/-- Inbound client message, mirroring the SignalingMessage interface; all
payload fields are optional, and the opaque signal payload is kept as an
uninterpreted string. -/
structure SignalingMessage where
  type : String
  roomId : Option String
  userId : Option String
  signal : Option String
  targetUserId : Option String
deriving Repr, DecidableEq

/-- Outbound server message: the user-list roster, a forwarded signal with
its fromUserId field, or an error payload. -/
inductive ServerMsg where
  | userList (users : List (String × String)) : ServerMsg
  | signalMsg (fromUserId : Option String) (payload : String) : ServerMsg
deriving Repr, DecidableEq

/-- Body of a Lambda HTTP response, keeping the distinguishable JSON shapes
the handler produces. -/
inductive ResponseBody where
  | err (e : String) : ResponseBody
  | errWithMessage (e m : String) : ResponseBody
  | msg (m : String) : ResponseBody
deriving Repr, DecidableEq

/-- APIGatewayProxyResultV2 as the handler builds it. -/
structure HandlerResult where
  statusCode : Nat
  body : Option ResponseBody
deriving Repr, DecidableEq

/-- Outbound posts made during one handler invocation, in order. -/
abbrev Sent := List (String × ServerMsg)

/-- PutCommand: insert or overwrite the item with key
(rec.roomId, rec.connectionId); last writer wins. -/
def putRecord (store : Store) (rec : RoomConnection) : Store :=
  store.filter (fun r =>
    decide (¬(r.roomId = rec.roomId ∧ r.connectionId = rec.connectionId))) ++ [rec]

/-- DeleteCommand: remove the item with key (roomId, connectionId);
idempotent. -/
def deleteRecord (store : Store) (roomId connectionId : String) : Store :=
  store.filter fun r =>
    decide (¬(r.roomId = roomId ∧ r.connectionId = connectionId))

/-- getRoomUsers: QueryCommand on the primary key with
KeyConditionExpression roomId = :roomId; no TTL filtering. -/
def getRoomUsers (store : Store) (roomId : String) : List RoomConnection :=
  store.filter fun r => decide (r.roomId = roomId)

/-- QueryCommand on the connectionId-index with KeyConditionExpression
connectionId = :connectionId, as used by handleDisconnect. -/
def listByConnection (store : Store) (connectionId : String) : List RoomConnection :=
  store.filter fun r => decide (r.connectionId = connectionId)

/-- ScanCommand over the whole table with FilterExpression
userId = :userId, as used by handleWebRTCSignal. -/
def scanByUserId (store : Store) (userId : String) : List RoomConnection :=
  store.filter fun r => decide (r.userId = userId)

/-- One recipient of broadcastToRoom: attempt the PostToConnection write;
on success record the delivery, on an error with statusCode 410 delete the
recipient record from the room, on any other error do nothing. -/
def sendStep (env : Env) (roomId : String) (msg : ServerMsg)
    (acc : Store × Sent) (u : RoomConnection) : Store × Sent :=
  match env u.connectionId with
  | SendResult.ok => (acc.1, acc.2 ++ [(u.connectionId, msg)])
  | SendResult.err code =>
      if code = 410 then (deleteRecord acc.1 roomId u.connectionId, acc.2)
      else acc

/-- broadcastToRoom: fetch the room roster, drop excluded connections, and
deliver to each remaining member with per-recipient error handling. -/
def broadcastToRoom (env : Env) (store : Store) (roomId : String) (msg : ServerMsg)
    (excludeConnections : List String) : Store × Sent :=
  let users := getRoomUsers store roomId
  let recipients := users.filter fun u => decide (u.connectionId ∉ excludeConnections)
  recipients.foldl (sendStep env roomId msg) (store, [])

/-- TTL offset used on join: 24 hours in seconds. -/
def ttlSeconds : Nat := 24 * 60 * 60

/-- handleJoinRoom: validate fields, enforce the 8-user room limit, put the
new RoomConnection with a 24h TTL, re-read the roster and broadcast the
user-list to the whole room. -/
def handleJoinRoom (env : Env) (now : Nat) (store : Store) (connectionId : String)
    (message : SignalingMessage) : Store × Sent × HandlerResult :=
  match message.roomId, message.userId with
  | some roomId, some userId =>
      let roomUsers := getRoomUsers store roomId
      if roomUsers.length ≥ 8 then
        (store, [], ⟨400, some (ResponseBody.errWithMessage "Room is full"
          "Maximum 8 users allowed per room for optimal performance")⟩)
      else
        let roomConnection : RoomConnection :=
          ⟨roomId, connectionId, userId, now + ttlSeconds⟩
        let store1 := putRecord store roomConnection
        let updatedUsers := getRoomUsers store1 roomId
        let rosterMsg := ServerMsg.userList
          (updatedUsers.map fun u => (u.userId, u.connectionId))
        let out := broadcastToRoom env store1 roomId rosterMsg []
        (out.1, out.2, ⟨200, some (ResponseBody.msg "Joined room successfully")⟩)
  | _, _ => (store, [], ⟨400, some (ResponseBody.err "Missing roomId or userId")⟩)

/-- handleLeaveRoom: delete the (roomId, connectionId) record, re-read the
roster and broadcast the user-list to the remaining members, excluding the
leaving connection. -/
def handleLeaveRoom (env : Env) (store : Store) (connectionId : String)
    (message : SignalingMessage) : Store × Sent × HandlerResult :=
  match message.roomId with
  | none => (store, [], ⟨400, some (ResponseBody.err "Missing roomId")⟩)
  | some roomId =>
      let store1 := deleteRecord store roomId connectionId
      let remainingUsers := getRoomUsers store1 roomId
      let rosterMsg := ServerMsg.userList
        (remainingUsers.map fun u => (u.userId, u.connectionId))
      let out := broadcastToRoom env store1 roomId rosterMsg [connectionId]
      (out.1, out.2, ⟨200, some (ResponseBody.msg "Left room successfully")⟩)

/-- handleWebRTCSignal: scan the whole table for records whose userId equals
targetUserId, pick the first, and post the signal to its connection with
fromUserId copied from the inbound message; a write failure is caught and
reported as a 500 without touching the store. -/
def handleWebRTCSignal (env : Env) (store : Store) (connectionId : String)
    (message : SignalingMessage) : Store × Sent × HandlerResult :=
  match message.targetUserId, message.signal with
  | some targetUserId, some payload =>
      let targetConnections := scanByUserId store targetUserId
      match targetConnections with
      | [] => (store, [], ⟨404, some (ResponseBody.err "Target user not found")⟩)
      | target :: _ =>
          match env target.connectionId with
          | SendResult.ok =>
              (store, [(target.connectionId, ServerMsg.signalMsg message.userId payload)],
                ⟨200, some (ResponseBody.msg "Signal forwarded")⟩)
          | SendResult.err _ =>
              (store, [], ⟨500, some (ResponseBody.err "Failed to forward signal")⟩)
  | _, _ =>
      (store, [], ⟨400, some (ResponseBody.err "Missing targetUserId or signal data")⟩)

/-- handleDisconnect: query the connectionId-index for all memberships of the
connection and delete each one; no broadcast is performed. -/
def handleDisconnect (store : Store) (connectionId : String) :
    Store × Sent × HandlerResult :=
  let items := listByConnection store connectionId
  let store1 := items.foldl (fun s item => deleteRecord s item.roomId connectionId) store
  (store1, [], ⟨200, none⟩)

/-- handleSignal: dispatch one inbound message on its type field. -/
def handleSignal (env : Env) (now : Nat) (store : Store) (connectionId : String)
    (message : SignalingMessage) : Store × Sent × HandlerResult :=
  if message.type = "join-room" then handleJoinRoom env now store connectionId message
  else if message.type = "leave-room" then handleLeaveRoom env store connectionId message
  else if message.type = "signal" then handleWebRTCSignal env store connectionId message
  else (store, [], ⟨400, some (ResponseBody.err "Unknown message type")⟩)

/-! Helper lemmas about the store operations and the broadcast loop. -/

/-- Membership in the store after a DeleteCommand. -/
lemma mem_deleteRecord (s : Store) (roomId connectionId : String) (r : RoomConnection) :
    r ∈ deleteRecord s roomId connectionId ↔
      r ∈ s ∧ ¬(r.roomId = roomId ∧ r.connectionId = connectionId) := by
  simp [deleteRecord, List.mem_filter]
  tauto

/-- Store component of the broadcast fan-out: a record survives exactly when
no recipient in the list is a stale (410) connection matching its key. -/
lemma mem_foldl_sendStep (env : Env) (roomId : String) (msg : ServerMsg) :
    ∀ (us : List RoomConnection) (s : Store) (acc : Sent) (r : RoomConnection),
      r ∈ (us.foldl (sendStep env roomId msg) (s, acc)).1 ↔
        r ∈ s ∧ ∀ u ∈ us, env u.connectionId = SendResult.err 410 →
          ¬(r.roomId = roomId ∧ r.connectionId = u.connectionId) := by
  intro us
  induction us with
  | nil => intro s acc r; simp
  | cons u us ih =>
      intro s acc r
      rw [List.foldl_cons]
      cases h : env u.connectionId with
      | ok =>
          simp only [sendStep, h]
          rw [ih]
          simp [h]
      | err code =>
          by_cases hc : code = 410
          · subst hc
            simp only [sendStep, h, eq_self_iff_true, if_true]
            rw [ih, mem_deleteRecord]
            constructor
            · rintro ⟨⟨hr, hnot⟩, hall⟩
              refine ⟨hr, ?_⟩
              intro v hv
              rcases List.mem_cons.mp hv with hvu | hvu
              · subst hvu; intro _; exact hnot
              · exact hall v hvu
            · rintro ⟨hr, hall⟩
              exact ⟨⟨hr, hall u (List.mem_cons_self u us) h⟩,
                fun v hv => hall v (List.mem_cons_of_mem u hv)⟩
          · simp only [sendStep, h, if_neg hc]
            rw [ih]
            constructor
            · rintro ⟨hr, hall⟩
              refine ⟨hr, ?_⟩
              intro v hv
              rcases List.mem_cons.mp hv with hvu | hvu
              · subst hvu
                intro h410
                exact absurd (h ▸ h410) (by simp [hc])
              · exact hall v hvu
            · rintro ⟨hr, hall⟩
              exact ⟨hr, fun v hv => hall v (List.mem_cons_of_mem u hv)⟩

/-- Delivery component of the broadcast fan-out: the posts made are exactly
the recipients whose write succeeds, in order, each carrying the message. -/
lemma foldl_sendStep_snd (env : Env) (roomId : String) (msg : ServerMsg) :
    ∀ (us : List RoomConnection) (s : Store) (acc : Sent),
      (us.foldl (sendStep env roomId msg) (s, acc)).2 =
        acc ++ (us.filter fun u => decide (env u.connectionId = SendResult.ok)).map
          (fun u => (u.connectionId, msg)) := by
  intro us
  induction us with
  | nil => intro s acc; simp
  | cons u us ih =>
      intro s acc
      rw [List.foldl_cons]
      cases h : env u.connectionId with
      | ok => simp [sendStep, h, ih]
      | err code =>
          by_cases hc : code = 410 <;> simp [sendStep, h, hc, ih]

/-- Store component of broadcastToRoom: a record survives the call exactly
when it is not a non-excluded member of the room whose write fails 410. -/
lemma mem_broadcastToRoom_fst (env : Env) (store : Store) (roomId : String)
    (msg : ServerMsg) (excl : List String) (r : RoomConnection) :
    r ∈ (broadcastToRoom env store roomId msg excl).1 ↔
      r ∈ store ∧ ¬(r.roomId = roomId ∧ r.connectionId ∉ excl ∧
        env r.connectionId = SendResult.err 410) := by
  unfold broadcastToRoom
  rw [mem_foldl_sendStep]
  constructor
  · rintro ⟨hr, hall⟩
    refine ⟨hr, ?_⟩
    rintro ⟨hroom, hexcl, henv⟩
    have hrec : r ∈ (getRoomUsers store roomId).filter
        (fun u => decide (u.connectionId ∉ excl)) := by
      simp [getRoomUsers, List.mem_filter, hroom, hexcl, hr]
    exact hall r hrec henv ⟨hroom, rfl⟩
  · rintro ⟨hr, hneg⟩
    refine ⟨hr, ?_⟩
    intro u hu henv hkey
    have hux : u.connectionId ∉ excl := by
      have := (List.mem_filter.mp hu).2
      simpa using this
    exact hneg ⟨hkey.1, hkey.2 ▸ hux, hkey.2 ▸ henv⟩

/-- When every write succeeds the broadcast leaves the store untouched. -/
lemma foldl_sendStep_fst_of_ok (env : Env) (roomId : String) (msg : ServerMsg) :
    ∀ (us : List RoomConnection), (∀ u ∈ us, env u.connectionId = SendResult.ok) →
      ∀ (s : Store) (acc : Sent), (us.foldl (sendStep env roomId msg) (s, acc)).1 = s := by
  intro us
  induction us with
  | nil => intro _ s acc; rfl
  | cons u us ih =>
      intro hok s acc
      rw [List.foldl_cons]
      have h := hok u (List.mem_cons_self u us)
      simp only [sendStep, h]
      exact ih (fun v hv => hok v (List.mem_cons_of_mem u hv)) s _

/-- When every write succeeds: the store is unchanged and every post carries
the broadcast message. -/
lemma broadcast_ok_spec (env : Env) (henv : ∀ c, env c = SendResult.ok)
    (store : Store) (roomId : String) (msg : ServerMsg) (excl : List String) :
    (broadcastToRoom env store roomId msg excl).1 = store ∧
    ∀ p ∈ (broadcastToRoom env store roomId msg excl).2, p.2 = msg := by
  unfold broadcastToRoom
  constructor
  · exact foldl_sendStep_fst_of_ok env roomId msg _ (fun u _ => henv u.connectionId) store []
  · intro p hp
    rw [foldl_sendStep_snd] at hp
    simp only [List.nil_append, List.mem_map] at hp
    obtain ⟨u, _, hu⟩ := hp
    rw [← hu]

/-- Store component of the disconnect cleanup loop. -/
lemma mem_foldl_deleteRecord (connectionId : String) :
    ∀ (items : List RoomConnection) (s : Store) (r : RoomConnection),
      r ∈ items.foldl (fun s1 item => deleteRecord s1 item.roomId connectionId) s ↔
        r ∈ s ∧ ∀ i ∈ items, ¬(r.roomId = i.roomId ∧ r.connectionId = connectionId) := by
  intro items
  induction items with
  | nil => intro s r; simp
  | cons i items ih =>
      intro s r
      rw [List.foldl_cons, ih, mem_deleteRecord]
      constructor
      · rintro ⟨⟨hr, hnot⟩, hall⟩
        refine ⟨hr, ?_⟩
        intro j hj
        rcases List.mem_cons.mp hj with h | h
        · subst h; exact hnot
        · exact hall j h
      · rintro ⟨hr, hall⟩
        exact ⟨⟨hr, hall i (List.mem_cons_self i items)⟩,
          fun j hj => hall j (List.mem_cons_of_mem i hj)⟩

/-! Concrete fixtures used by the counterexamples and witnesses. -/

/-- Environment in which every PostToConnection write succeeds. -/
def envAllOk : Env := fun _ => SendResult.ok

/-- Environment in which the connection c2 is gone (writes to it fail with
statusCode 410) and every other write succeeds. -/
def envStaleC2 : Env := fun c => if c = "c2" then SendResult.err 410 else SendResult.ok

/-- Record of alice on connection c1 in room R1. -/
def aliceRec : RoomConnection := ⟨"R1", "c1", "alice", 86400⟩

/-- Record of bob on connection c2 in room R1. -/
def bobRec : RoomConnection := ⟨"R1", "c2", "bob", 86400⟩

/-- Record of bob on connection c2 in room R2. -/
def bobR2Rec : RoomConnection := ⟨"R2", "c2", "bob", 86400⟩

/-- Record whose ttl (0) lies in the past for any positive observation time. -/
def expiredRec : RoomConnection := ⟨"R1", "c2", "bob", 0⟩

/-- Store holding alice and bob in room R1. -/
def storeAB : Store := [aliceRec, bobRec]

/-- Store holding only the record of bob in room R2. -/
def storeBobR2 : Store := [bobR2Rec]

/-- Signal message from the client claiming userId alice, targeting bob. -/
def sigToBobMsg : SignalingMessage :=
  ⟨"signal", none, some "alice", some "offer-payload", some "bob"⟩

/-- Signal message naming room R1 while targeting bob. -/
def sigToBobR1Msg : SignalingMessage :=
  ⟨"signal", some "R1", some "alice", some "offer-payload", some "bob"⟩

/-! Claim C1. -/

/-- C1 fails on the code: forwarding a signal to bob, whose connection is
gone (the PostToConnection write fails with statusCode 410), returns a 500
failed-to-forward error and leaves the record of bob in the store, instead
of deleting the record and returning a target-not-found error. -/
theorem C1_counterexample :
    (handleWebRTCSignal envStaleC2 storeAB "c1" sigToBobMsg).2.2.statusCode = 500 ∧
    bobRec ∈ (handleWebRTCSignal envStaleC2 storeAB "c1" sigToBobMsg).1 := by
  decide

/-- C1 amended: on any PostToConnection failure during a signal forward,
stale connections included, the handler catches the error and returns a 500
failed-to-forward response; it deletes no Participant Record and posts
nothing, leaving the whole store unchanged.  The stale-connection (410)
pruning exists only inside broadcastToRoom. -/
theorem C1_forward_failure_no_prune (env : Env) (store : Store)
    (connectionId : String) (message : SignalingMessage)
    (t s : String) (rec : RoomConnection) (rest : List RoomConnection) (code : Nat)
    (ht : message.targetUserId = some t) (hs : message.signal = some s)
    (hscan : scanByUserId store t = rec :: rest)
    (henv : env rec.connectionId = SendResult.err code) :
    handleWebRTCSignal env store connectionId message =
      (store, [], ⟨500, some (ResponseBody.err "Failed to forward signal")⟩) := by
  simp [handleWebRTCSignal, ht, hs, hscan, henv]

/-- C1 amended, evaluated: the stale forward to bob in the two-member room
leaves the store unchanged and answers 500. -/
theorem C1_forward_failure_no_prune_witness :
    handleWebRTCSignal envStaleC2 storeAB "c1" sigToBobMsg =
      (storeAB, [], ⟨500, some (ResponseBody.err "Failed to forward signal")⟩) :=
  C1_forward_failure_no_prune envStaleC2 storeAB "c1" sigToBobMsg "bob" "offer-payload"
    bobRec [] 410 rfl rfl (by decide) (by decide)

/-! Claim C2. -/

/-- C2 fails on the code: when connection c2 disconnects from room R1, which
still contains alice, handleDisconnect deletes the membership of c2 but
posts no user-list broadcast to the remaining member. -/
theorem C2_counterexample :
    (handleDisconnect storeAB "c2").2.1 = [] ∧
    aliceRec ∈ (handleDisconnect storeAB "c2").1 := by
  decide

/-- C2 amended: after handleDisconnect settles, listByConnection for the
closed connection returns no memberships, but no roster broadcast is posted
to anyone — the rooms the connection belonged to are not notified. -/
theorem C2_disconnect_cleanup (store : Store) (connectionId : String) :
    listByConnection (handleDisconnect store connectionId).1 connectionId = [] ∧
    (handleDisconnect store connectionId).2.1 = [] := by
  refine ⟨?_, rfl⟩
  have h1 : (handleDisconnect store connectionId).1 =
      (listByConnection store connectionId).foldl
        (fun s item => deleteRecord s item.roomId connectionId) store := rfl
  rw [h1]
  unfold listByConnection
  rw [List.filter_eq_nil_iff]
  intro r hr
  rw [mem_foldl_deleteRecord] at hr
  obtain ⟨hmem, hall⟩ := hr
  simp only [decide_eq_true_eq]
  intro hcid
  have hrin : r ∈ (listByConnection store connectionId) := by
    simp [listByConnection, List.mem_filter, hmem, hcid]
  have := hall r (by simpa [listByConnection] using hrin)
  exact this ⟨rfl, hcid⟩

/-! Claim C3. -/

/-- C3 fails on the code: the target lookup is a whole-table scan filtered
only by userId, so a signal naming room R1 is delivered to the record of bob
that lives in room R2. -/
theorem C3_counterexample :
    sigToBobR1Msg.roomId = some "R1" ∧ bobR2Rec.roomId = "R2" ∧
    (handleWebRTCSignal envAllOk storeBobR2 "c1" sigToBobR1Msg).2.1 =
      [("c2", ServerMsg.signalMsg (some "alice") "offer-payload")] := by
  decide

/-- C3 amended: the target lookup of handleWebRTCSignal ignores the roomId
field entirely — two messages differing only in roomId produce identical
results — and the forward goes to the connection of the first record of the
whole-table scan filtered by userId, whatever room that record lives in. -/
theorem C3_scan_ignores_room (env : Env) (store : Store) (connectionId : String)
    (ty : String) (r1 r2 uid sig tgt : Option String)
    (message : SignalingMessage) (t s : String)
    (rec : RoomConnection) (rest : List RoomConnection)
    (ht : message.targetUserId = some t) (hs : message.signal = some s)
    (hscan : scanByUserId store t = rec :: rest)
    (henv : env rec.connectionId = SendResult.ok) :
    handleWebRTCSignal env store connectionId ⟨ty, r1, uid, sig, tgt⟩ =
      handleWebRTCSignal env store connectionId ⟨ty, r2, uid, sig, tgt⟩ ∧
    ((handleWebRTCSignal env store connectionId message).2.1).map Prod.fst =
      [rec.connectionId] := by
  refine ⟨rfl, ?_⟩
  simp [handleWebRTCSignal, ht, hs, hscan, henv]

/-- C3 amended, evaluated: the signal naming R1 reaches the record of bob in
R2, the only match of the userId scan. -/
theorem C3_scan_ignores_room_witness :
    (handleWebRTCSignal envAllOk storeBobR2 "c1"
        ⟨"signal", some "R1", some "alice", some "offer-payload", some "bob"⟩ =
      handleWebRTCSignal envAllOk storeBobR2 "c1"
        ⟨"signal", some "R9", some "alice", some "offer-payload", some "bob"⟩) ∧
    ((handleWebRTCSignal envAllOk storeBobR2 "c1" sigToBobR1Msg).2.1).map Prod.fst =
      [bobR2Rec.connectionId] :=
  C3_scan_ignores_room envAllOk storeBobR2 "c1" "signal" (some "R1") (some "R9")
    (some "alice") (some "offer-payload") (some "bob") sigToBobR1Msg "bob"
    "offer-payload" bobR2Rec [] rfl rfl (by decide) (by decide)

/-! Claim C4. -/

/-- C4 fails on the code: a record whose ttl (0) has passed at observation
time 1000 is still returned by getRoomUsers and still counted toward room
size, because no read operation applies a TTL condition. -/
theorem C4_counterexample :
    expiredRec.ttl < 1000 ∧
    getRoomUsers [expiredRec] "R1" = [expiredRec] ∧
    (getRoomUsers [expiredRec] "R1").length = 1 := by
  decide

/-- C4 amended: the read operations apply no TTL condition; a physically
present record is returned by getRoomUsers and by listByConnection, and so
counted toward room size, even when its ttl lies before the observation
time — absence of expired records relies entirely on the physical purge of
the storage engine. -/
theorem C4_reads_ignore_ttl (now : Nat) (store : Store) (roomId : String)
    (rec : RoomConnection) (hmem : rec ∈ store) (hroom : rec.roomId = roomId)
    (hexp : rec.ttl < now) :
    rec ∈ getRoomUsers store roomId ∧ rec ∈ listByConnection store rec.connectionId := by
  constructor
  · simp [getRoomUsers, List.mem_filter, hmem, hroom]
  · simp [listByConnection, List.mem_filter, hmem]

/-- C4 amended, evaluated on the expired record at observation time 1000. -/
theorem C4_reads_ignore_ttl_witness :
    expiredRec ∈ getRoomUsers [expiredRec] "R1" ∧
    expiredRec ∈ listByConnection [expiredRec] expiredRec.connectionId :=
  C4_reads_ignore_ttl 1000 [expiredRec] "R1" expiredRec (by decide) rfl (by decide)

/-! Claim C5. -/

/-- Signal message in which the sending client claims userId mallory. -/
def spoofedMsg : SignalingMessage :=
  ⟨"signal", none, some "mallory", some "offer-payload", some "bob"⟩

/-- C5 fails on the code: connection c1 is recorded in the store as alice,
yet a signal it sends claiming userId mallory reaches bob with fromUserId
mallory — the relay copies the client-supplied field instead of attaching
the recorded identity of the sending connection. -/
theorem C5_counterexample :
    listByConnection storeAB "c1" = [aliceRec] ∧ aliceRec.userId = "alice" ∧
    (handleWebRTCSignal envAllOk storeAB "c1" spoofedMsg).2.1 =
      [("c2", ServerMsg.signalMsg (some "mallory") "offer-payload")] := by
  decide

/-- C5 amended: in every delivered signal the fromUserId field is copied
verbatim from the client-supplied userId field of the inbound message, with
no check against the identity recorded for the sending connection; the
opaque payload is forwarded unchanged. -/
theorem C5_fromUserId_client_supplied (env : Env) (store : Store)
    (connectionId : String) (message : SignalingMessage) (t s : String)
    (rec : RoomConnection) (rest : List RoomConnection)
    (ht : message.targetUserId = some t) (hs : message.signal = some s)
    (hscan : scanByUserId store t = rec :: rest)
    (henv : env rec.connectionId = SendResult.ok) :
    (handleWebRTCSignal env store connectionId message).2.1 =
      [(rec.connectionId, ServerMsg.signalMsg message.userId s)] := by
  simp [handleWebRTCSignal, ht, hs, hscan, henv]

/-- C5 amended, evaluated: the spoofed message reaches bob carrying the
client-supplied fromUserId mallory and the unchanged payload. -/
theorem C5_fromUserId_client_supplied_witness :
    (handleWebRTCSignal envAllOk storeAB "c1" spoofedMsg).2.1 =
      [(bobRec.connectionId, ServerMsg.signalMsg spoofedMsg.userId "offer-payload")] :=
  C5_fromUserId_client_supplied envAllOk storeAB "c1" spoofedMsg "bob" "offer-payload"
    bobRec [] rfl rfl (by decide) (by decide)

/-! Claim C6. -/

/-- Store holding eight records in room R1. -/
def fullRoomStore : Store :=
  [⟨"R1", "d1", "u1", 86400⟩, ⟨"R1", "d2", "u2", 86400⟩,
   ⟨"R1", "d3", "u3", 86400⟩, ⟨"R1", "d4", "u4", 86400⟩,
   ⟨"R1", "d5", "u5", 86400⟩, ⟨"R1", "d6", "u6", 86400⟩,
   ⟨"R1", "d7", "u7", 86400⟩, ⟨"R1", "d8", "u8", 86400⟩]

/-- join-room message of ivan for room R1. -/
def joinIvanMsg : SignalingMessage := ⟨"join-room", some "R1", some "ivan", none, none⟩

/-- C6: a join-room request arriving when the room already holds 8 or more
records is answered with the capacity error alone: the store is unchanged —
no record is put — and no broadcast is posted to anyone; only the joining
connection receives the error response. -/
theorem C6_capacity_reject (env : Env) (now : Nat) (store : Store)
    (connectionId : String) (message : SignalingMessage) (r u : String)
    (hr : message.roomId = some r) (hu : message.userId = some u)
    (hfull : (getRoomUsers store r).length ≥ 8) :
    handleJoinRoom env now store connectionId message =
      (store, [], ⟨400, some (ResponseBody.errWithMessage "Room is full"
        "Maximum 8 users allowed per room for optimal performance")⟩) := by
  simp [handleJoinRoom, hr, hu, hfull]

/-- C6, evaluated: ivan joining the full eight-member room is rejected with
the capacity error and nothing changes. -/
theorem C6_capacity_reject_witness :
    handleJoinRoom envAllOk 0 fullRoomStore "c9" joinIvanMsg =
      (fullRoomStore, [], ⟨400, some (ResponseBody.errWithMessage "Room is full"
        "Maximum 8 users allowed per room for optimal performance")⟩) :=
  C6_capacity_reject envAllOk 0 fullRoomStore "c9" joinIvanMsg "R1" "ivan"
    rfl rfl (by decide)

/-! Claim C7. -/

/-- join-room message of alice for room R1. -/
def joinAliceMsg : SignalingMessage := ⟨"join-room", some "R1", some "alice", none, none⟩

/-- join-room message of bob for room R1. -/
def joinBobMsg : SignalingMessage := ⟨"join-room", some "R1", some "bob", none, none⟩

/-- leave-room message for room R1. -/
def leaveR1Msg : SignalingMessage := ⟨"leave-room", some "R1", none, none, none⟩

/-- Join under an all-ok environment: the final store is the put, and every
posted user-list carries the roster re-read after the put. -/
lemma handleJoinRoom_ok (env : Env) (henv : ∀ c, env c = SendResult.ok)
    (now : Nat) (store : Store) (connectionId : String) (message : SignalingMessage)
    (r u : String) (hr : message.roomId = some r) (hu : message.userId = some u)
    (hlt : (getRoomUsers store r).length < 8) :
    (handleJoinRoom env now store connectionId message).1 =
      putRecord store ⟨r, connectionId, u, now + ttlSeconds⟩ ∧
    ∀ p ∈ (handleJoinRoom env now store connectionId message).2.1,
      p.2 = ServerMsg.userList
        ((getRoomUsers (putRecord store ⟨r, connectionId, u, now + ttlSeconds⟩) r).map
          fun v => (v.userId, v.connectionId)) := by
  have hnf : ¬ (getRoomUsers store r).length ≥ 8 := by omega
  obtain ⟨hfst, hsnd⟩ := broadcast_ok_spec env henv
    (putRecord store ⟨r, connectionId, u, now + ttlSeconds⟩) r
    (ServerMsg.userList
      ((getRoomUsers (putRecord store ⟨r, connectionId, u, now + ttlSeconds⟩) r).map
        fun v => (v.userId, v.connectionId))) []
  constructor
  · rw [show (handleJoinRoom env now store connectionId message).1 =
        (broadcastToRoom env (putRecord store ⟨r, connectionId, u, now + ttlSeconds⟩) r
          (ServerMsg.userList
            ((getRoomUsers (putRecord store ⟨r, connectionId, u, now + ttlSeconds⟩) r).map
              fun v => (v.userId, v.connectionId))) []).1 by
      simp [handleJoinRoom, hr, hu, hnf]]
    exact hfst
  · intro p hp
    rw [show (handleJoinRoom env now store connectionId message).2.1 =
        (broadcastToRoom env (putRecord store ⟨r, connectionId, u, now + ttlSeconds⟩) r
          (ServerMsg.userList
            ((getRoomUsers (putRecord store ⟨r, connectionId, u, now + ttlSeconds⟩) r).map
              fun v => (v.userId, v.connectionId))) []).2 by
      simp [handleJoinRoom, hr, hu, hnf]] at hp
    exact hsnd p hp

/-- Leave under an all-ok environment: the final store is the delete, and
every posted user-list carries the roster re-read after the delete. -/
lemma handleLeaveRoom_ok (env : Env) (henv : ∀ c, env c = SendResult.ok)
    (store : Store) (connectionId : String) (message : SignalingMessage)
    (r : String) (hr : message.roomId = some r) :
    (handleLeaveRoom env store connectionId message).1 =
      deleteRecord store r connectionId ∧
    ∀ p ∈ (handleLeaveRoom env store connectionId message).2.1,
      p.2 = ServerMsg.userList
        ((getRoomUsers (deleteRecord store r connectionId) r).map
          fun v => (v.userId, v.connectionId)) := by
  obtain ⟨hfst, hsnd⟩ := broadcast_ok_spec env henv
    (deleteRecord store r connectionId) r
    (ServerMsg.userList
      ((getRoomUsers (deleteRecord store r connectionId) r).map
        fun v => (v.userId, v.connectionId))) [connectionId]
  constructor
  · rw [show (handleLeaveRoom env store connectionId message).1 =
        (broadcastToRoom env (deleteRecord store r connectionId) r
          (ServerMsg.userList
            ((getRoomUsers (deleteRecord store r connectionId) r).map
              fun v => (v.userId, v.connectionId))) [connectionId]).1 by
      simp [handleLeaveRoom, hr]]
    exact hfst
  · intro p hp
    rw [show (handleLeaveRoom env store connectionId message).2.1 =
        (broadcastToRoom env (deleteRecord store r connectionId) r
          (ServerMsg.userList
            ((getRoomUsers (deleteRecord store r connectionId) r).map
              fun v => (v.userId, v.connectionId))) [connectionId]).2 by
      simp [handleLeaveRoom, hr]] at hp
    exact hsnd p hp

/-- C7 fails on the code in the disconnect case: after alice and bob join
R1 the last user-list broadcast names both, and the disconnect of bob then
deletes the record while broadcasting nothing, so listByRoom no longer
matches the most recent user-list message of the room. -/
theorem C7_counterexample :
    (handleJoinRoom envAllOk 0 (handleJoinRoom envAllOk 0 [] "c1" joinAliceMsg).1
        "c2" joinBobMsg).1 = storeAB ∧
    (handleJoinRoom envAllOk 0 (handleJoinRoom envAllOk 0 [] "c1" joinAliceMsg).1
        "c2" joinBobMsg).2.1 =
      [("c1", ServerMsg.userList [("alice", "c1"), ("bob", "c2")]),
       ("c2", ServerMsg.userList [("alice", "c1"), ("bob", "c2")])] ∧
    (handleDisconnect storeAB "c2").2.1 = [] ∧
    getRoomUsers (handleDisconnect storeAB "c2").1 "R1" = [aliceRec] := by
  decide

/-- C7 amended: when every delivery succeeds, the user-list posted after a
join-room or a leave-room always carries exactly the map of listByRoom of
the resulting store, because the roster is recomputed by a full re-read
after the mutation; a disconnect, however, posts no user-list at all, so
the most recent broadcast can disagree with the store afterwards. -/
theorem C7_roster_accuracy (env : Env) (henv : ∀ c, env c = SendResult.ok) :
    (∀ (now : Nat) (store : Store) (connectionId : String)
        (message : SignalingMessage) (r u : String),
      message.roomId = some r → message.userId = some u →
      (getRoomUsers store r).length < 8 →
      ∀ p ∈ (handleJoinRoom env now store connectionId message).2.1,
        p.2 = ServerMsg.userList
          ((getRoomUsers (handleJoinRoom env now store connectionId message).1 r).map
            fun v => (v.userId, v.connectionId))) ∧
    (∀ (store : Store) (connectionId : String) (message : SignalingMessage)
        (r : String),
      message.roomId = some r →
      ∀ p ∈ (handleLeaveRoom env store connectionId message).2.1,
        p.2 = ServerMsg.userList
          ((getRoomUsers (handleLeaveRoom env store connectionId message).1 r).map
            fun v => (v.userId, v.connectionId))) ∧
    (∀ (store : Store) (connectionId : String),
      (handleDisconnect store connectionId).2.1 = []) := by
  refine ⟨?_, ?_, fun store connectionId => rfl⟩
  · intro now store connectionId message r u hr hu hlt p hp
    obtain ⟨h1, h2⟩ := handleJoinRoom_ok env henv now store connectionId message r u hr hu hlt
    rw [h1]
    exact h2 p hp
  · intro store connectionId message r hr p hp
    obtain ⟨h1, h2⟩ := handleLeaveRoom_ok env henv store connectionId message r hr
    rw [h1]
    exact h2 p hp

/-- C7 amended, evaluated on the join of alice into the empty room, the
leave of c1 from the two-member room, and the disconnect of c1. -/
theorem C7_roster_accuracy_witness :
    (∀ p ∈ (handleJoinRoom envAllOk 0 [] "c1" joinAliceMsg).2.1,
      p.2 = ServerMsg.userList
        ((getRoomUsers (handleJoinRoom envAllOk 0 [] "c1" joinAliceMsg).1 "R1").map
          fun v => (v.userId, v.connectionId))) ∧
    (∀ p ∈ (handleLeaveRoom envAllOk storeAB "c1" leaveR1Msg).2.1,
      p.2 = ServerMsg.userList
        ((getRoomUsers (handleLeaveRoom envAllOk storeAB "c1" leaveR1Msg).1 "R1").map
          fun v => (v.userId, v.connectionId))) ∧
    (handleDisconnect storeAB "c1").2.1 = [] :=
  ⟨(C7_roster_accuracy envAllOk (fun _ => rfl)).1 0 [] "c1" joinAliceMsg "R1" "alice"
      rfl rfl (by decide),
   (C7_roster_accuracy envAllOk (fun _ => rfl)).2.1 storeAB "c1" leaveR1Msg "R1" rfl,
   (C7_roster_accuracy envAllOk (fun _ => rfl)).2.2 storeAB "c1"⟩

/-! Claim C8. -/

/-- C8 fails on the code: when c1 leaves R1 while the remaining member bob
on c2 has a dead connection, the roster broadcast prunes the record of bob
as well, so a record other than the one keyed by the request is removed by
the leave-room operation. -/
theorem C8_counterexample :
    bobRec ∈ storeAB ∧ bobRec.connectionId ≠ "c1" ∧
    bobRec ∉ (handleLeaveRoom envStaleC2 storeAB "c1" leaveR1Msg).1 := by
  decide

/-- C8 amended: a leave-room request removes the record keyed by the request
roomId and the calling connection and, in addition, during the roster
broadcast, the record of any other member of that room whose delivery fails
with statusCode 410; every remaining record — records of other rooms, and
members whose delivery succeeds or fails with another code — survives. -/
theorem C8_leave_frame (env : Env) (store : Store) (connectionId : String)
    (message : SignalingMessage) (r : String) (hr : message.roomId = some r)
    (rec : RoomConnection) :
    rec ∈ (handleLeaveRoom env store connectionId message).1 ↔
      rec ∈ store ∧ ¬(rec.roomId = r ∧ rec.connectionId = connectionId) ∧
      ¬(rec.roomId = r ∧ rec.connectionId ≠ connectionId ∧
        env rec.connectionId = SendResult.err 410) := by
  have h1 : (handleLeaveRoom env store connectionId message).1 =
      (broadcastToRoom env (deleteRecord store r connectionId) r
        (ServerMsg.userList ((getRoomUsers (deleteRecord store r connectionId) r).map
          fun v => (v.userId, v.connectionId))) [connectionId]).1 := by
    simp [handleLeaveRoom, hr]
  rw [h1, mem_broadcastToRoom_fst, mem_deleteRecord]
  constructor
  · rintro ⟨⟨hmem, hkey⟩, hstale⟩
    refine ⟨hmem, hkey, ?_⟩
    rintro ⟨hroom, hne, h410⟩
    exact hstale ⟨hroom, by simpa using hne, h410⟩
  · rintro ⟨hmem, hkey, hstale⟩
    refine ⟨⟨hmem, hkey⟩, ?_⟩
    rintro ⟨hroom, hnotin, h410⟩
    exact hstale ⟨hroom, by simpa using hnotin, h410⟩

/-- C8 amended, evaluated on the record of bob during the leave of c1 with
c2 stale. -/
theorem C8_leave_frame_witness :
    bobRec ∈ (handleLeaveRoom envStaleC2 storeAB "c1" leaveR1Msg).1 ↔
      bobRec ∈ storeAB ∧ ¬(bobRec.roomId = "R1" ∧ bobRec.connectionId = "c1") ∧
      ¬(bobRec.roomId = "R1" ∧ bobRec.connectionId ≠ "c1" ∧
        envStaleC2 bobRec.connectionId = SendResult.err 410) :=
  C8_leave_frame envStaleC2 storeAB "c1" leaveR1Msg "R1" rfl bobRec

/-! Claim C9. -/

/-- C9: handleSignal imposes no membership precondition on the sender: a
connection that appears nowhere in the store still gets a well-formed signal
forwarded to the connection of the first record matching the target user,
in whatever room that record lives. -/
theorem C9_no_sender_precondition (env : Env) (now : Nat) (store : Store)
    (connectionId : String) (message : SignalingMessage) (t s : String)
    (rec : RoomConnection) (rest : List RoomConnection)
    (hty : message.type = "signal")
    (ht : message.targetUserId = some t) (hs : message.signal = some s)
    (hnomem : ∀ q ∈ store, q.connectionId ≠ connectionId)
    (hscan : scanByUserId store t = rec :: rest)
    (henv : env rec.connectionId = SendResult.ok) :
    handleSignal env now store connectionId message =
      (store, [(rec.connectionId, ServerMsg.signalMsg message.userId s)],
        ⟨200, some (ResponseBody.msg "Signal forwarded")⟩) := by
  simp [handleSignal, hty, handleWebRTCSignal, ht, hs, hscan, henv]

/-- C9, evaluated: the sender c1 appears nowhere in the store, and its
signal is still forwarded to the record of bob in room R2. -/
theorem C9_no_sender_precondition_witness :
    handleSignal envAllOk 0 storeBobR2 "c1" sigToBobR1Msg =
      (storeBobR2, [(bobR2Rec.connectionId,
        ServerMsg.signalMsg sigToBobR1Msg.userId "offer-payload")],
        ⟨200, some (ResponseBody.msg "Signal forwarded")⟩) :=
  C9_no_sender_precondition envAllOk 0 storeBobR2 "c1" sigToBobR1Msg "bob"
    "offer-payload" bobR2Rec [] rfl rfl rfl (by decide) (by decide) (by decide)

/-! Claim C10. -/

/-- C10: broadcastToRoom treats every recipient independently and never
escalates a delivery failure: for every environment the call returns
normally; the posts made are exactly the non-excluded room members whose
write succeeds, in roster order, each carrying the message; and a record
survives the call if and only if it is not a non-excluded member of the
room whose write fails with statusCode 410 — no other error code deletes
anything. -/
theorem C10_broadcast_self_heal (env : Env) (store : Store) (roomId : String)
    (msg : ServerMsg) (excl : List String) :
    (broadcastToRoom env store roomId msg excl).2 =
      (((getRoomUsers store roomId).filter fun u => decide (u.connectionId ∉ excl)).filter
        fun u => decide (env u.connectionId = SendResult.ok)).map
        (fun u => (u.connectionId, msg)) ∧
    ∀ r, r ∈ (broadcastToRoom env store roomId msg excl).1 ↔
      r ∈ store ∧ ¬(r.roomId = roomId ∧ r.connectionId ∉ excl ∧
        env r.connectionId = SendResult.err 410) := by
  constructor
  · rw [show (broadcastToRoom env store roomId msg excl).2 =
        (((getRoomUsers store roomId).filter fun u =>
          decide (u.connectionId ∉ excl)).foldl (sendStep env roomId msg) (store, [])).2
        from rfl]
    rw [foldl_sendStep_snd]
    simp
  · intro r
    exact mem_broadcastToRoom_fst env store roomId msg excl r

end CdkConfVibe
